import Mathlib

/-!
Shallow embedding of the scooter7/skilledtrades aggregation logic
(src/skilledtradesapp.py and src/skilledtrades.py).

External collaborators (the Jina/Firecrawl agent, the College Scorecard
HTTP API, the Google Custom Search API, and the json.loads parser) are
modelled as oracle functions passed explicitly to each embedded function.
Each embedded fetch returns, alongside its result, the ordered list of
queries/prompts it issued, so that invocation counts and ordering are
provable facts of the embedding.
-/

set_option maxRecDepth 100000

namespace SkilledTrades

/-- Model of the Python str.strip() method: remove leading and trailing
whitespace characters. -/
def pyStrip (s : String) : String :=
  ⟨((s.data.dropWhile Char.isWhitespace).reverse.dropWhile Char.isWhitespace).reverse⟩

/-- Model of the Python str.lower() method: lowercase each character. -/
def pyLower (s : String) : String :=
  ⟨s.data.map Char.toLower⟩

/-- Boolean substring test on character lists: does the needle occur
contiguously inside the haystack?  Models the Python expression
needle in haystack for strings. -/
def hasSubstrAux (needle : List Char) : List Char → Bool
  | [] => needle.isEmpty
  | c :: rest => needle.isPrefixOf (c :: rest) || hasSubstrAux needle rest

/-- Models the Python membership test given by writing
NO_DATA_FOUND in content (src/skilledtradesapp.py line 71). -/
def containsNoDataFound (s : String) : Bool :=
  hasSubstrAux "NO_DATA_FOUND".data s.data

/-- The full-name to two-letter-code state table
(src/skilledtradesapp.py lines 21-35; identical copy at
src/skilledtrades.py lines 19-33). -/
def state_abbrev_map : List (String × String) :=
  [("Alabama", "AL"), ("Alaska", "AK"), ("Arizona", "AZ"), ("Arkansas", "AR"),
   ("California", "CA"), ("Colorado", "CO"), ("Connecticut", "CT"), ("Delaware", "DE"),
   ("Florida", "FL"), ("Georgia", "GA"), ("Hawaii", "HI"), ("Idaho", "ID"),
   ("Illinois", "IL"), ("Indiana", "IN"), ("Iowa", "IA"), ("Kansas", "KS"),
   ("Kentucky", "KY"), ("Louisiana", "LA"), ("Maine", "ME"), ("Maryland", "MD"),
   ("Massachusetts", "MA"), ("Michigan", "MI"), ("Minnesota", "MN"), ("Mississippi", "MS"),
   ("Missouri", "MO"), ("Montana", "MT"), ("Nebraska", "NE"), ("Nevada", "NV"),
   ("New Hampshire", "NH"), ("New Jersey", "NJ"), ("New Mexico", "NM"),
   ("New York", "NY"), ("North Carolina", "NC"), ("North Dakota", "ND"), ("Ohio", "OH"),
   ("Oklahoma", "OK"), ("Oregon", "OR"), ("Pennsylvania", "PA"), ("Rhode Island", "RI"),
   ("South Carolina", "SC"), ("South Dakota", "SD"), ("Tennessee", "TN"), ("Texas", "TX"),
   ("Utah", "UT"), ("Vermont", "VT"), ("Virginia", "VA"), ("Washington", "WA"),
   ("West Virginia", "WV"), ("Wisconsin", "WI"), ("Wyoming", "WY")]

/-- The closed trade set (src/skilledtradesapp.py lines 40-47;
identical at src/skilledtrades.py lines 36-43). -/
def TRADES : List String :=
  ["Manufacturing", "Automotive", "Construction", "Energy", "Healthcare",
   "Information Technology"]

/-- The state-level search prompt of fetch_bls_data
(src/skilledtradesapp.py lines 63-66). -/
def state_search_prompt (trade state : String) : String :=
  "Search for: BLS data or workforce outlook for \x27" ++ trade ++ "\x27 in \x27" ++
    state ++ "\x27. " ++
    "If no relevant info is found, respond with EXACTLY \x27NO_DATA_FOUND\x27. Summarize clearly."

/-- The national fallback prompt of fetch_bls_data
(src/skilledtradesapp.py lines 73-76). -/
def fallback_prompt (trade state : String) : String :=
  "Search for: national BLS data or outlook for \x27" ++ trade ++
    "\x27, plus any workforce dev info for \x27" ++ state ++ "\x27. " ++
    "Summarize clearly."

/-- Embedding of fetch_bls_data (src/skilledtradesapp.py lines 54-80).
The agent oracle maps a prompt to the response content string.  Returns
the summarized text together with the ordered list of prompts issued:
the state-level prompt first, and the fallback prompt exactly when the
stripped first response contains the substring NO_DATA_FOUND. -/
def fetch_bls_data (agent : String → String) (trade state : String) :
    String × List String :=
  let p1 := state_search_prompt trade state
  let content1 := pyStrip (agent p1)
  if containsNoDataFound content1 then
    let p2 := fallback_prompt trade state
    (agent p2, [p1, p2])
  else
    (content1, [p1])

/-- One raw College Scorecard result row, as consumed by the Python code:
the fields school.name and latest.cost.tuition.in_state may be absent
(modelled by none), and latest.programs.cip_4_digit is a list of entries
whose title key may be absent or empty
(src/skilledtradesapp.py lines 116-120). -/
structure ScorecardItem where
  name : Option String
  tuition : Option String
  cip_titles : List (Option String)
deriving DecidableEq

/-- An HTTP response from the College Scorecard API: status code plus the
parsed results array (src/skilledtradesapp.py lines 109-114). -/
structure ScorecardResponse where
  status : Nat
  results : List ScorecardItem
deriving DecidableEq

/-- The query parameters that vary per call to the College Scorecard API:
school.state (the two-letter abbreviation) and the lowercased trade
keyword for latest.programs.cip_4_digit.title__icontains
(src/skilledtradesapp.py lines 102-108). -/
structure CipQuery where
  state_abbrev : String
  keyword : String
deriving DecidableEq

/-- One normalized college record as built by fetch_cip_colleges
(src/skilledtradesapp.py lines 121-125). -/
structure College where
  name : String
  tuition_in_state : String
  cip_titles : List String
deriving DecidableEq

/-- The per-row normalization inside fetch_cip_colleges
(src/skilledtradesapp.py lines 116-125): missing school.name and missing
tuition map to the sentinel N/A; a cip entry is kept exactly when its
title is present and non-empty (Python truthiness of x.get, line 120). -/
def normalizeItem (item : ScorecardItem) : College :=
  { name := item.name.getD "N/A",
    tuition_in_state := item.tuition.getD "N/A",
    cip_titles := item.cip_titles.filterMap fun e =>
      e.bind fun t => if t = "" then none else some t }

/-- Embedding of fetch_cip_colleges (src/skilledtradesapp.py lines 85-126).
The provider oracle maps the query to an HTTP response.  Returns the
college list together with the list of queries issued: empty when the
state is not in the abbreviation table (line 96-97: no request is made),
a single query otherwise; a non-200 status maps to an empty list
(lines 110-111). -/
def fetch_cip_colleges (provider : CipQuery → ScorecardResponse)
    (trade state : String) : List College × List CipQuery :=
  match state_abbrev_map.lookup state with
  | none => ([], [])
  | some ab =>
    let q : CipQuery := ⟨ab, pyLower trade⟩
    let resp := provider q
    if resp.status ≠ 200 then ([], [q])
    else (resp.results.map normalizeItem, [q])

/-- The refinement prompt of refine_college_details
(src/skilledtradesapp.py lines 141-146). -/
def refine_prompt (college_name trade : String) : String :=
  "Search for: program details about \x27" ++ trade ++ "\x27 at \x27" ++
    college_name ++ "\x27. " ++
    "Return the info in JSON with these keys: " ++
    "degree_type, program_duration, offers_microcredentials, mentions_ai. " ++
    "If not found, respond with \x27N/A\x27 for each key."

/-- Outcome of json.loads on a response string followed by dict access:
either a flat string-valued object, or fail (a parse error, or a payload
that is not an object, both caught by the bare except at
src/skilledtradesapp.py line 159). -/
inductive JsonOutcome where
  | fail
  | obj (fields : List (String × String))
deriving DecidableEq

/-- The four-field details record built by refine_college_details
(src/skilledtradesapp.py lines 153-165). -/
structure Details where
  degree_type : String
  program_duration : String
  offers_microcredentials : String
  mentions_ai : String
deriving DecidableEq

/-- Embedding of refine_college_details (src/skilledtradesapp.py
lines 131-165).  The agent oracle maps a prompt to response content;
the parseJson oracle models json.loads on the stripped content.  A parse
failure yields all-sentinel fields; otherwise each key missing from the
parsed object defaults to N/A. -/
def refine_college_details (agent : String → String)
    (parseJson : String → JsonOutcome) (college_name trade : String) : Details :=
  let content := pyStrip (agent (refine_prompt college_name trade))
  match parseJson content with
  | .fail => ⟨"N/A", "N/A", "N/A", "N/A"⟩
  | .obj fields =>
    { degree_type := (fields.lookup "degree_type").getD "N/A",
      program_duration := (fields.lookup "program_duration").getD "N/A",
      offers_microcredentials := (fields.lookup "offers_microcredentials").getD "N/A",
      mentions_ai := (fields.lookup "mentions_ai").getD "N/A" }

/-- One row of the dataframe built by build_college_dataframe
(src/skilledtradesapp.py lines 185-193). -/
structure CollegeRow where
  college : String
  tuition_cost : String
  cip_titles : String
  degree_type : String
  program_duration : String
  offers_microcredentials : String
  mentions_ai : String
deriving DecidableEq

/-- The row construction of build_college_dataframe for one college
(src/skilledtradesapp.py lines 183-194): an empty cip title list renders
as the sentinel N/A, otherwise the titles joined by a comma and space. -/
def collegeRowOf (agent : String → String) (parseJson : String → JsonOutcome)
    (trade : String) (c : College) : CollegeRow :=
  let details := refine_college_details agent parseJson c.name trade
  { college := c.name,
    tuition_cost := c.tuition_in_state,
    cip_titles := if c.cip_titles.isEmpty then "N/A"
                  else String.intercalate ", " c.cip_titles,
    degree_type := details.degree_type,
    program_duration := details.program_duration,
    offers_microcredentials := details.offers_microcredentials,
    mentions_ai := details.mentions_ai }

/-- Embedding of build_college_dataframe (src/skilledtradesapp.py
lines 170-196).  The early return of an empty dataframe for an empty
college list (lines 179-180) coincides with mapping over the empty
list. -/
def build_college_dataframe (agent : String → String)
    (parseJson : String → JsonOutcome) (provider : CipQuery → ScorecardResponse)
    (trade state : String) : List CollegeRow :=
  let raw := (fetch_cip_colleges provider trade state).1
  raw.map (collegeRowOf agent parseJson trade)

/-- The jobs prompt of fetch_job_listings (src/skilledtradesapp.py
lines 206-209). -/
def jobs_prompt (trade state : String) : String :=
  "Search for: Indeed job listings for \x27" ++ trade ++ "\x27 in \x27" ++
    state ++ "\x27. " ++
    "List job title, company, location, and any direct links if available."

/-- Embedding of fetch_job_listings (src/skilledtradesapp.py
lines 201-211): a single agent run whose content is returned as is. -/
def fetch_job_listings (agent : String → String) (trade state : String) :
    String × List String :=
  let p := jobs_prompt trade state
  (agent p, [p])

/-- Tag for the three information needs run by the Streamlit handlers. -/
inductive Need where
  | outlook
  | institutions
  | jobs
deriving DecidableEq

/-- Embedding of the Fetch Data branch of main (src/skilledtradesapp.py
lines 234-254): the three needs run unconditionally in order, each fed
only by its own oracle calls; the Need trace records which sections
executed and in which order. -/
def main (agent : String → String) (parseJson : String → JsonOutcome)
    (provider : CipQuery → ScorecardResponse) (trade state : String) :
    (String × List CollegeRow × String) × List Need :=
  let bls := fetch_bls_data agent trade state
  let colleges := build_college_dataframe agent parseJson provider trade state
  let jobsResult := fetch_job_listings agent trade state
  ((bls.1, colleges, jobsResult.1), [Need.outlook, Need.institutions, Need.jobs])

/-- The single BLS query of fetch_bls_projections
(src/skilledtrades.py lines 91-96). -/
def bls_projections_query (trade state : String) : String :=
  "Retrieve BLS projections for the " ++ trade ++ " industry in " ++ state ++ ". " ++
    "If no valuable data is found at the state level, present national-level growth projections " ++
    "and also gather data from the " ++ state ++
    " workforce development site about job outlook " ++
    "for this industry. Provide a thorough answer."

/-- Embedding of fetch_bls_projections (src/skilledtrades.py lines 85-98):
a single agent run, no programmatic fallback (the fallback wording lives
inside the one query string). -/
def fetch_bls_projections (bls_agent : String → String) (trade state : String) :
    String × List String :=
  let q := bls_projections_query trade state
  (bls_agent q, [q])

/-- The per-college details query of fetch_education_programs_table
(src/skilledtrades.py lines 145-150). -/
def edu_details_query (trade college_name : String) : String :=
  "Provide details about the " ++ trade ++ " program at " ++ college_name ++ ". " ++
    "Return the following information in JSON format with keys: " ++
    "\x27degree type\x27, \x27program duration\x27, \x27offers microcredentials\x27, " ++
    "\x27mentions AI in program description\x27. If data is unavailable, use \x27N/A\x27."

/-- One row of the dataframe built by fetch_education_programs_table
(src/skilledtrades.py lines 162-169). -/
structure EduRow where
  college : String
  degree_type : String
  tuition_cost : String
  program_duration : String
  offers_microcredentials : String
  mentions_ai : String
deriving DecidableEq

/-- The per-school row construction of fetch_education_programs_table
(src/skilledtrades.py lines 139-169).  The agent oracle composes
agent.run with json.loads; any exception in either maps to fail, which
the except branch replaces with an all-N/A object (lines 151-160); each
key missing from the parsed object defaults to N/A (lines 162-169). -/
def eduRowOf (agent : String → JsonOutcome) (trade : String)
    (school : ScorecardItem) : EduRow :=
  let college_name := school.name.getD "N/A"
  let tuition_cost := school.tuition.getD "N/A"
  let details_json : List (String × String) :=
    match agent (edu_details_query trade college_name) with
    | .fail =>
      [("degree type", "N/A"), ("program duration", "N/A"),
       ("offers microcredentials", "N/A"),
       ("mentions AI in program description", "N/A")]
    | .obj fields => fields
  { college := college_name,
    degree_type := (details_json.lookup "degree type").getD "N/A",
    tuition_cost := tuition_cost,
    program_duration := (details_json.lookup "program duration").getD "N/A",
    offers_microcredentials :=
      (details_json.lookup "offers microcredentials").getD "N/A",
    mentions_ai :=
      (details_json.lookup "mentions AI in program description").getD "N/A" }

/-- Embedding of fetch_education_programs_table (src/skilledtrades.py
lines 100-171).  An unmapped state name and a non-200 status each yield
an empty dataframe (lines 108-111 and 128-130); the early return for an
empty results array (lines 134-136) coincides with mapping over the
empty list. -/
def fetch_education_programs_table (agent : String → JsonOutcome)
    (provider : CipQuery → ScorecardResponse) (full_state_name trade : String) :
    List EduRow :=
  match state_abbrev_map.lookup full_state_name with
  | none => []
  | some ab =>
    let q : CipQuery := ⟨ab, pyLower trade⟩
    let resp := provider q
    if resp.status ≠ 200 then []
    else resp.results.map (eduRowOf agent trade)

/-- An HTTP response from the Google Custom Search API: status code,
body text, and the parsed items array (each item a flat string dict)
(src/skilledtrades.py lines 186-189). -/
structure CseResponse where
  status : Nat
  text : String
  items : List (List (String × String))
deriving DecidableEq

/-- An element of the list returned by fetch_job_listings_indeed: either
a raw search item passed through unchanged, or the error marker dict
built on a non-200 status (src/skilledtrades.py lines 189-191). -/
inductive CseEntry where
  | item (fields : List (String × String))
  | err (code : Nat) (message : String)
deriving DecidableEq

/-- Does this entry carry the error key?  Models the Python check
given by membership of error in job_results[0]
(src/skilledtrades.py line 213). -/
def CseEntry.isErr : CseEntry → Bool
  | .err _ _ => true
  | .item _ => false

/-- The search query of fetch_job_listings_indeed
(src/skilledtrades.py line 178). -/
def jobs_query (trade state : String) : String :=
  trade ++ " jobs " ++ state ++ " site:indeed.com"

/-- Embedding of fetch_job_listings_indeed (src/skilledtrades.py
lines 173-191).  On a 200 status the items array is returned unchanged;
on any other status the function returns a one-element list holding an
error marker with the status code and body text — not an empty list. -/
def fetch_job_listings_indeed (provider : String → CseResponse)
    (trade state : String) : List CseEntry × List String :=
  let q := jobs_query trade state
  let resp := provider q
  if resp.status = 200 then (resp.items.map CseEntry.item, [q])
  else ([CseEntry.err resp.status resp.text], [q])

/-- Embedding of the Fetch Data button handler (src/skilledtrades.py
lines 193-223): the three needs run unconditionally in order, each fed
only by its own oracle; the Need trace records the executed sections in
order. -/
def fetch_data_button (bls_agent : String → String)
    (eduAgent : String → JsonOutcome) (provider : CipQuery → ScorecardResponse)
    (cse : String → CseResponse) (trade state : String) :
    (String × List EduRow × List CseEntry) × List Need :=
  let bls := fetch_bls_projections bls_agent trade state
  let edu := fetch_education_programs_table eduAgent provider state trade
  let jobsResult := fetch_job_listings_indeed cse trade state
  ((bls.1, edu, jobsResult.1), [Need.outlook, Need.institutions, Need.jobs])

/-- The keyword expansion the code performs for a trade: the single
lowercased trade label, computed at src/skilledtradesapp.py line 100 and
src/skilledtrades.py line 114 (trade_keyword = trade.lower()); no synonym
table exists anywhere in the repository, so every trade maps to the
one-element list of its own lowercase label. -/
def expand (trade : String) : List String :=
  [pyLower trade]

/-- C1 counterexample: the first outlook response is a non-empty string
(it even carries usable data), yet because it contains the substring
NO_DATA_FOUND the fallback prompt is still issued and the first response
is not what the resolver returns — refuting the claim that a non-empty
first result always short-circuits the cascade. -/
theorem C1_counterexample :
    pyStrip ((fun (_ : String) =>
        "Construction in Texas is growing 5 percent. NO_DATA_FOUND at the county level.")
      (state_search_prompt "Construction" "Texas")) ≠ "" ∧
    (fetch_bls_data
      (fun p => if p = state_search_prompt "Construction" "Texas" then
          "Construction in Texas is growing 5 percent. NO_DATA_FOUND at the county level."
        else "National outlook: steady growth.")
      "Construction" "Texas").2 =
      [state_search_prompt "Construction" "Texas",
       fallback_prompt "Construction" "Texas"] ∧
    (fetch_bls_data
      (fun p => if p = state_search_prompt "Construction" "Texas" then
          "Construction in Texas is growing 5 percent. NO_DATA_FOUND at the county level."
        else "National outlook: steady growth.")
      "Construction" "Texas").1 = "National outlook: steady growth." := by
  decide

/-- C1 (amended): if the stripped first (state-level) outlook response does
not contain the substring NO_DATA_FOUND, the resolver returns that first
stripped response and the fallback prompt is never issued — the prompt
trace is exactly the single state-level prompt. -/
theorem C1_short_circuit (agent : String → String) (trade state : String)
    (h : containsNoDataFound (pyStrip (agent (state_search_prompt trade state))) = false) :
    fetch_bls_data agent trade state =
      (pyStrip (agent (state_search_prompt trade state)),
       [state_search_prompt trade state]) := by
  simp [fetch_bls_data, h]

/-- Witness for C1_short_circuit at a concrete agent whose state-level
response carries data and no NO_DATA_FOUND marker. -/
theorem C1_short_circuit_witness :
    containsNoDataFound (pyStrip ((fun (_ : String) =>
        "Texas construction outlook: steady growth.")
      (state_search_prompt "Construction" "Texas"))) = false ∧
    fetch_bls_data (fun _ => "Texas construction outlook: steady growth.")
      "Construction" "Texas" =
      ("Texas construction outlook: steady growth.",
       [state_search_prompt "Construction" "Texas"]) :=
  ⟨by decide,
   (C1_short_circuit (fun _ => "Texas construction outlook: steady growth.")
      "Construction" "Texas" (by decide)).trans (by decide)⟩

/-- C3 counterexample: when every outlook response is NO_DATA_FOUND, the
agent is invoked exactly 2 times, not 3 — the code has no third
(regional-workforce) attempt between the state-scoped and national
queries. -/
theorem C3_counterexample :
    (fetch_bls_data (fun _ => "NO_DATA_FOUND") "Manufacturing" "Ohio").2.length = 2 ∧
    ¬ (fetch_bls_data (fun _ => "NO_DATA_FOUND") "Manufacturing" "Ohio").2.length = 3 := by
  decide

/-- C3 (amended): the outlook cascade consists of exactly two attempts
tried strictly in order — the state-scoped query, then a single combined
national-plus-state-workforce fallback query — and when the first yields
the NO_DATA_FOUND marker the resolver output equals the second attempt
response with the agent invoked exactly twice in that order. -/
theorem C3_two_attempt_cascade (agent : String → String) (trade state : String)
    (h : containsNoDataFound (pyStrip (agent (state_search_prompt trade state))) = true) :
    fetch_bls_data agent trade state =
      (agent (fallback_prompt trade state),
       [state_search_prompt trade state, fallback_prompt trade state]) := by
  simp [fetch_bls_data, h]

/-- Witness for C3_two_attempt_cascade at the all-empty agent. -/
theorem C3_two_attempt_cascade_witness :
    containsNoDataFound (pyStrip ((fun (_ : String) => "NO_DATA_FOUND")
      (state_search_prompt "Manufacturing" "Ohio"))) = true ∧
    fetch_bls_data (fun _ => "NO_DATA_FOUND") "Manufacturing" "Ohio" =
      ("NO_DATA_FOUND",
       [state_search_prompt "Manufacturing" "Ohio",
        fallback_prompt "Manufacturing" "Ohio"]) :=
  ⟨by decide,
   (C3_two_attempt_cascade (fun _ => "NO_DATA_FOUND") "Manufacturing" "Ohio"
      (by decide)).trans (by decide)⟩

/-- C10: the fallback outlook query is issued if and only if the stripped
first response contains the substring NO_DATA_FOUND anywhere; when it is,
the first response content is discarded and the fallback response is
returned verbatim (unstripped); when it is not, only the state-level
prompt is ever issued and its stripped response is returned. -/
theorem C10_fallback_trigger (agent : String → String) (trade state : String) :
    (containsNoDataFound (pyStrip (agent (state_search_prompt trade state))) = true ↔
      (fetch_bls_data agent trade state).2 =
        [state_search_prompt trade state, fallback_prompt trade state]) ∧
    (containsNoDataFound (pyStrip (agent (state_search_prompt trade state))) = true →
      (fetch_bls_data agent trade state).1 = agent (fallback_prompt trade state)) ∧
    (containsNoDataFound (pyStrip (agent (state_search_prompt trade state))) = false →
      (fetch_bls_data agent trade state).2 = [state_search_prompt trade state] ∧
      (fetch_bls_data agent trade state).1 =
        pyStrip (agent (state_search_prompt trade state))) := by
  cases hND : containsNoDataFound (pyStrip (agent (state_search_prompt trade state))) <;>
    simp [fetch_bls_data, hND]

/-- Witness for C10_fallback_trigger: a response that mixes usable data
with the NO_DATA_FOUND marker triggers the fallback. -/
theorem C10_fallback_trigger_witness :
    (fetch_bls_data
      (fun _ => "Healthcare demand is rising. NO_DATA_FOUND for Maine specifics.")
      "Healthcare" "Maine").2 =
      [state_search_prompt "Healthcare" "Maine", fallback_prompt "Healthcare" "Maine"] :=
  ((C10_fallback_trigger
      (fun _ => "Healthcare demand is rising. NO_DATA_FOUND for Maine specifics.")
      "Healthcare" "Maine").1).mp (by decide)

/-- C2 counterexample: a 500 status from the Google Custom Search client
yields a one-element list holding an error payload — a non-empty sequence
containing an error record, refuting the claim that every provider
failure maps to an empty sequence. -/
theorem C2_counterexample :
    fetch_job_listings_indeed (fun _ => ⟨500, "Internal Server Error", []⟩)
      "Construction" "Texas" =
      ([CseEntry.err 500 "Internal Server Error"],
       [jobs_query "Construction" "Texas"]) ∧
    ([CseEntry.err 500 "Internal Server Error"] : List CseEntry) ≠ [] ∧
    CseEntry.isErr (CseEntry.err 500 "Internal Server Error") = true := by
  decide

/-- C2 (amended): an HTTP failure (non-200 status) from the College
Scorecard client maps to an empty list, in both app variants; but the
same failure from the Google Custom Search jobs client maps to a
one-element list containing an error payload (status code plus body
text), not to an empty sequence. -/
theorem C2_failure_mapping :
    (∀ (resp : CseResponse) (trade state : String), resp.status ≠ 200 →
      (fetch_job_listings_indeed (fun _ => resp) trade state).1 =
        [CseEntry.err resp.status resp.text]) ∧
    (∀ (resp : ScorecardResponse) (trade state : String), resp.status ≠ 200 →
      (fetch_cip_colleges (fun _ => resp) trade state).1 = []) ∧
    (∀ (resp : ScorecardResponse) (agent : String → JsonOutcome)
        (state trade : String), resp.status ≠ 200 →
      fetch_education_programs_table agent (fun _ => resp) state trade = []) := by
  refine ⟨?_, ?_, ?_⟩
  · intro resp trade state h
    simp [fetch_job_listings_indeed, h]
  · intro resp trade state h
    unfold fetch_cip_colleges
    cases hl : state_abbrev_map.lookup state with
    | none => rfl
    | some ab => simp [h]
  · intro resp agent state trade h
    unfold fetch_education_programs_table
    cases hl : state_abbrev_map.lookup state with
    | none => rfl
    | some ab => simp [h]

/-- Witness for C2_failure_mapping at concrete failing responses. -/
theorem C2_failure_mapping_witness :
    ((404 : Nat) ≠ 200 ∧
      (fetch_job_listings_indeed (fun _ => ⟨404, "Not Found", []⟩) "Energy" "Ohio").1 =
        [CseEntry.err 404 "Not Found"]) ∧
    (fetch_cip_colleges
        (fun _ => (⟨500, [⟨some "A", some "1", []⟩]⟩ : ScorecardResponse))
        "Energy" "Ohio").1 = [] ∧
    fetch_education_programs_table (fun _ => JsonOutcome.fail)
      (fun _ => (⟨500, [⟨some "A", some "1", []⟩]⟩ : ScorecardResponse))
      "Ohio" "Energy" = [] :=
  ⟨⟨by decide,
    C2_failure_mapping.1 ⟨404, "Not Found", []⟩ "Energy" "Ohio" (by decide)⟩,
   C2_failure_mapping.2.1 ⟨500, [⟨some "A", some "1", []⟩]⟩ "Energy" "Ohio" (by decide),
   C2_failure_mapping.2.2 ⟨500, [⟨some "A", some "1", []⟩]⟩ (fun _ => JsonOutcome.fail)
     "Ohio" "Energy" (by decide)⟩

/-- C4 counterexample: two provider rows sharing the name X both survive
into the institutions collection as separate records — there is no
merging by name anywhere in the code, refuting the at-most-one-record-
per-name (and first-tuition-wins union) merge rule. -/
theorem C4_counterexample :
    ¬ ((fetch_cip_colleges
        (fun _ => ⟨200, [⟨some "X", some "10000", [some "Welding"]⟩,
                         ⟨some "X", some "12000", [some "Machining"]⟩]⟩)
        "Construction" "Texas").1.countP (fun c => c.name == "X") ≤ 1) ∧
    (fetch_cip_colleges
        (fun _ => ⟨200, [⟨some "X", some "10000", [some "Welding"]⟩,
                         ⟨some "X", some "12000", [some "Machining"]⟩]⟩)
        "Construction" "Texas").1 =
      [⟨"X", "10000", ["Welding"]⟩, ⟨"X", "12000", ["Machining"]⟩] := by
  decide

/-- C4 (amended): no dedup merge is performed — on a successful provider
response the institutions collection has exactly one record per provider
result row, in provider order, each normalized independently; same-name
rows stay separate records, so a later duplicate never overwrites an
earlier record's fields (the earlier record is simply untouched). -/
theorem C4_no_merge (provider : CipQuery → ScorecardResponse)
    (trade state ab : String)
    (h : state_abbrev_map.lookup state = some ab)
    (h2 : (provider ⟨ab, pyLower trade⟩).status = 200) :
    (fetch_cip_colleges provider trade state).1 =
      (provider ⟨ab, pyLower trade⟩).results.map normalizeItem := by
  unfold fetch_cip_colleges
  rw [h]
  simp [h2]

/-- Witness for C4_no_merge: the duplicate-name response above maps to
one output record per row. -/
theorem C4_no_merge_witness :
    state_abbrev_map.lookup "Texas" = some "TX" ∧
    (fetch_cip_colleges
        (fun _ => ⟨200, [⟨some "Lone Star College", some "10000", [some "Welding"]⟩,
                         ⟨some "Lone Star College", some "12000", [some "Machining"]⟩]⟩)
        "Construction" "Texas").1 =
      [⟨"Lone Star College", "10000", ["Welding"]⟩,
       ⟨"Lone Star College", "12000", ["Machining"]⟩] :=
  ⟨by decide,
   (C4_no_merge
      (fun _ => ⟨200, [⟨some "Lone Star College", some "10000", [some "Welding"]⟩,
                       ⟨some "Lone Star College", some "12000", [some "Machining"]⟩]⟩)
      "Construction" "Texas" "TX" (by decide) (by decide)).trans (by decide)⟩

/-- C5: need independence — in both Fetch Data handlers, for every oracle
behavior (including failing statuses, parse failures, and NO_DATA_FOUND
responses) the three needs are attempted unconditionally in the order
outlook, institutions, jobs, and each component of the returned triple
equals the result of its own stand-alone fetch, so no outcome in one
need can block, skip, or alter another. -/
theorem C5_need_independence :
    (∀ (agent : String → String) (parseJson : String → JsonOutcome)
        (provider : CipQuery → ScorecardResponse) (trade state : String),
      (main agent parseJson provider trade state).2 =
        [Need.outlook, Need.institutions, Need.jobs] ∧
      (main agent parseJson provider trade state).1.1 =
        (fetch_bls_data agent trade state).1 ∧
      (main agent parseJson provider trade state).1.2.1 =
        build_college_dataframe agent parseJson provider trade state ∧
      (main agent parseJson provider trade state).1.2.2 =
        (fetch_job_listings agent trade state).1) ∧
    (∀ (bls_agent : String → String) (eduAgent : String → JsonOutcome)
        (provider : CipQuery → ScorecardResponse) (cse : String → CseResponse)
        (trade state : String),
      (fetch_data_button bls_agent eduAgent provider cse trade state).2 =
        [Need.outlook, Need.institutions, Need.jobs] ∧
      (fetch_data_button bls_agent eduAgent provider cse trade state).1.1 =
        (fetch_bls_projections bls_agent trade state).1 ∧
      (fetch_data_button bls_agent eduAgent provider cse trade state).1.2.1 =
        fetch_education_programs_table eduAgent provider state trade ∧
      (fetch_data_button bls_agent eduAgent provider cse trade state).1.2.2 =
        (fetch_job_listings_indeed cse trade state).1) := by
  constructor <;> intros <;> exact ⟨rfl, rfl, rfl, rfl⟩

/-- C6: for every trade in the closed trade set the keyword expansion is
a non-empty sequence whose first element is the trade's own lowercase
label, and every College Scorecard query the code issues for that trade
carries exactly that first keyword. -/
theorem C6_keyword_expansion (trade : String) (_h : trade ∈ TRADES) :
    expand trade ≠ [] ∧
    (expand trade).head? = some (pyLower trade) ∧
    (∀ (provider : CipQuery → ScorecardResponse) (state : String) (q : CipQuery),
      q ∈ (fetch_cip_colleges provider trade state).2 →
      q.keyword = (expand trade).headD "") := by
  refine ⟨by simp [expand], by simp [expand], ?_⟩
  intro provider state q hq
  unfold fetch_cip_colleges at hq
  cases hl : state_abbrev_map.lookup state with
  | none => rw [hl] at hq; simp at hq
  | some ab =>
    rw [hl] at hq
    dsimp only at hq
    split at hq <;> simp at hq <;> simp [hq, expand]

/-- Witness for C6_keyword_expansion at the trade Construction, including
the query-keyword conjunct at a concrete provider and state. -/
theorem C6_keyword_expansion_witness :
    ("Construction" ∈ TRADES) ∧
    expand "Construction" ≠ [] ∧
    (expand "Construction").head? = some (pyLower "Construction") ∧
    (⟨"TX", pyLower "Construction"⟩ : CipQuery).keyword =
      (expand "Construction").headD "" :=
  ⟨by decide,
   (C6_keyword_expansion "Construction" (by decide)).1,
   (C6_keyword_expansion "Construction" (by decide)).2.1,
   (C6_keyword_expansion "Construction" (by decide)).2.2
     (fun _ => ⟨200, []⟩) "Texas" ⟨"TX", pyLower "Construction"⟩ (by decide)⟩

/-- C8: the static full-name table has exactly 50 entries with pairwise
distinct full names; for every full name present in the table the
College Scorecard query is issued with the mapped two-letter
abbreviation (exactly one provider call); and for any name absent from
the table the institutions need returns an empty collection with no
provider call at all. -/
theorem C8_region_resolution :
    state_abbrev_map.length = 50 ∧
    (state_abbrev_map.map Prod.fst).Nodup ∧
    (∀ (state ab : String), state_abbrev_map.lookup state = some ab →
      ∀ (provider : CipQuery → ScorecardResponse) (trade : String),
        (fetch_cip_colleges provider trade state).2 = [⟨ab, pyLower trade⟩]) ∧
    (∀ state : String, state_abbrev_map.lookup state = none →
      ∀ (provider : CipQuery → ScorecardResponse) (trade : String),
        fetch_cip_colleges provider trade state = ([], [])) := by
  refine ⟨rfl, by decide, ?_, ?_⟩
  · intro state ab h provider trade
    unfold fetch_cip_colleges
    rw [h]
    dsimp only
    split <;> rfl
  · intro state h provider trade
    unfold fetch_cip_colleges
    rw [h]

/-- Witness for C8_region_resolution: Texas maps to TX and a single query
with TX is issued; the unmapped name Atlantis yields no results and no
provider call. -/
theorem C8_region_resolution_witness :
    state_abbrev_map.lookup "Texas" = some "TX" ∧
    (fetch_cip_colleges (fun _ => ⟨200, []⟩) "Energy" "Texas").2 =
      [⟨"TX", pyLower "Energy"⟩] ∧
    state_abbrev_map.lookup "Atlantis" = none ∧
    fetch_cip_colleges (fun _ => ⟨200, []⟩) "Energy" "Atlantis" = ([], []) :=
  ⟨by decide,
   C8_region_resolution.2.2.1 "Texas" "TX" (by decide) (fun _ => ⟨200, []⟩) "Energy",
   by decide,
   C8_region_resolution.2.2.2 "Atlantis" (by decide) (fun _ => ⟨200, []⟩) "Energy"⟩

/-- C7: sentinel completeness of the institution normalizers, in both
app variants — the record types carry every field of their variant by
construction, and each field whose source datum is missing or
unparseable is populated with the sentinel N/A: a missing school name or
tuition, a JSON parse failure (which blanks all four detail fields), a
detail key absent from a parsed object, and an empty cip title list all
map to N/A rather than to an omitted field. -/
theorem C7_sentinel_completeness :
    (∀ item : ScorecardItem, item.name = none → (normalizeItem item).name = "N/A") ∧
    (∀ item : ScorecardItem, item.tuition = none →
      (normalizeItem item).tuition_in_state = "N/A") ∧
    (∀ (agent : String → String) (parseJson : String → JsonOutcome)
        (college_name trade : String),
      parseJson (pyStrip (agent (refine_prompt college_name trade))) = JsonOutcome.fail →
      refine_college_details agent parseJson college_name trade =
        ⟨"N/A", "N/A", "N/A", "N/A"⟩) ∧
    (∀ (agent : String → String) (parseJson : String → JsonOutcome)
        (college_name trade : String) (fields : List (String × String)),
      parseJson (pyStrip (agent (refine_prompt college_name trade))) =
        JsonOutcome.obj fields →
      (fields.lookup "degree_type" = none →
        (refine_college_details agent parseJson college_name trade).degree_type = "N/A") ∧
      (fields.lookup "program_duration" = none →
        (refine_college_details agent parseJson college_name trade).program_duration =
          "N/A") ∧
      (fields.lookup "offers_microcredentials" = none →
        (refine_college_details agent parseJson college_name
            trade).offers_microcredentials = "N/A") ∧
      (fields.lookup "mentions_ai" = none →
        (refine_college_details agent parseJson college_name trade).mentions_ai =
          "N/A")) ∧
    (∀ (agent : String → String) (parseJson : String → JsonOutcome)
        (trade : String) (c : College), c.cip_titles = [] →
      (collegeRowOf agent parseJson trade c).cip_titles = "N/A") ∧
    (∀ (agent : String → JsonOutcome) (trade : String) (school : ScorecardItem),
      (school.name = none → (eduRowOf agent trade school).college = "N/A") ∧
      (school.tuition = none → (eduRowOf agent trade school).tuition_cost = "N/A")) ∧
    (∀ (agent : String → JsonOutcome) (trade : String) (school : ScorecardItem),
      agent (edu_details_query trade (school.name.getD "N/A")) = JsonOutcome.fail →
      (eduRowOf agent trade school).degree_type = "N/A" ∧
      (eduRowOf agent trade school).program_duration = "N/A" ∧
      (eduRowOf agent trade school).offers_microcredentials = "N/A" ∧
      (eduRowOf agent trade school).mentions_ai = "N/A") := by
  refine ⟨?_, ?_, ?_, ?_, ?_, ?_, ?_⟩
  · intro item h; simp [normalizeItem, h]
  · intro item h; simp [normalizeItem, h]
  · intro agent parseJson college_name trade h
    simp [refine_college_details, h]
  · intro agent parseJson college_name trade fields h
    refine ⟨?_, ?_, ?_, ?_⟩ <;> intro hk <;>
      simp [refine_college_details, h, hk]
  · intro agent parseJson trade c h
    simp [collegeRowOf, h]
  · intro agent trade school
    constructor <;> intro h <;> simp [eduRowOf, h]
  · intro agent trade school h
    refine ⟨?_, ?_, ?_, ?_⟩ <;> simp [eduRowOf, h] <;> decide

/-- Witness for C7_sentinel_completeness at fully-missing concrete
payloads: an item with no name, no tuition and no titles, a failing
JSON parse, and an empty parsed object. -/
theorem C7_sentinel_completeness_witness :
    (normalizeItem ⟨none, none, []⟩).name = "N/A" ∧
    (normalizeItem ⟨none, none, []⟩).tuition_in_state = "N/A" ∧
    refine_college_details (fun _ => "not json") (fun _ => JsonOutcome.fail)
      "Lone Star College" "Construction" = ⟨"N/A", "N/A", "N/A", "N/A"⟩ ∧
    (refine_college_details (fun _ => "{}") (fun _ => JsonOutcome.obj [])
      "Lone Star College" "Construction").degree_type = "N/A" ∧
    (collegeRowOf (fun _ => "x") (fun _ => JsonOutcome.fail) "Construction"
      ⟨"Lone Star College", "N/A", []⟩).cip_titles = "N/A" ∧
    (eduRowOf (fun _ => JsonOutcome.fail) "Construction" ⟨none, none, []⟩).college =
      "N/A" ∧
    (eduRowOf (fun _ => JsonOutcome.fail) "Construction" ⟨none, none, []⟩).degree_type =
      "N/A" :=
  ⟨C7_sentinel_completeness.1 ⟨none, none, []⟩ (by decide),
   C7_sentinel_completeness.2.1 ⟨none, none, []⟩ (by decide),
   C7_sentinel_completeness.2.2.1 (fun _ => "not json") (fun _ => JsonOutcome.fail)
     "Lone Star College" "Construction" (by decide),
   (C7_sentinel_completeness.2.2.2.1 (fun _ => "{}") (fun _ => JsonOutcome.obj [])
     "Lone Star College" "Construction" [] (by decide)).1 (by decide),
   C7_sentinel_completeness.2.2.2.2.1 (fun _ => "x") (fun _ => JsonOutcome.fail)
     "Construction" ⟨"Lone Star College", "N/A", []⟩ (by decide),
   (C7_sentinel_completeness.2.2.2.2.2.1 (fun _ => JsonOutcome.fail) "Construction"
     ⟨none, none, []⟩).1 (by decide),
   (C7_sentinel_completeness.2.2.2.2.2.2 (fun _ => JsonOutcome.fail) "Construction"
     ⟨none, none, []⟩ (by decide)).1⟩

/-- C9: every search query string the code issues is a pure function of
the trade and state alone — the jobs query, the BLS queries and the
College Scorecard query are fixed templates over their inputs,
identical across any two oracle behaviors, and each prompt in the BLS
trace is one of the two templates for those inputs. -/
theorem C9_query_determinism :
    (∀ (provider provider2 : String → CseResponse) (trade state : String),
      (fetch_job_listings_indeed provider trade state).2 = [jobs_query trade state] ∧
      (fetch_job_listings_indeed provider trade state).2 =
        (fetch_job_listings_indeed provider2 trade state).2) ∧
    (∀ (agent : String → String) (trade state : String),
      ((fetch_bls_data agent trade state).2).head? =
        some (state_search_prompt trade state)) ∧
    (∀ (agent : String → String) (trade state : String) (p : String),
      p ∈ (fetch_bls_data agent trade state).2 →
      p = state_search_prompt trade state ∨ p = fallback_prompt trade state) ∧
    (∀ (provider provider2 : CipQuery → ScorecardResponse) (trade state : String),
      (fetch_cip_colleges provider trade state).2 =
        (fetch_cip_colleges provider2 trade state).2) ∧
    (∀ (bls_agent : String → String) (trade state : String),
      (fetch_bls_projections bls_agent trade state).2 =
        [bls_projections_query trade state]) ∧
    (∀ (agent : String → String) (trade state : String),
      (fetch_job_listings agent trade state).2 = [jobs_prompt trade state]) := by
  refine ⟨?_, ?_, ?_, ?_, ?_, ?_⟩
  · intro provider provider2 trade state
    refine ⟨?_, ?_⟩
    · unfold fetch_job_listings_indeed
      dsimp only
      split <;> rfl
    · unfold fetch_job_listings_indeed
      dsimp only
      split <;> split <;> rfl
  · intro agent trade state
    unfold fetch_bls_data
    dsimp only
    split <;> rfl
  · intro agent trade state p hp
    unfold fetch_bls_data at hp
    dsimp only at hp
    split at hp <;> simp at hp <;> tauto
  · intro provider provider2 trade state
    unfold fetch_cip_colleges
    cases hl : state_abbrev_map.lookup state with
    | none => rfl
    | some ab => dsimp only; split <;> split <;> rfl
  · intro bls_agent trade state; rfl
  · intro agent trade state; rfl

/-- Witness for C9_query_determinism: the state-level prompt is in the
BLS trace of a concrete run and is one of the two templates. -/
theorem C9_query_determinism_witness :
    state_search_prompt "Automotive" "Iowa" ∈
      (fetch_bls_data (fun _ => "NO_DATA_FOUND") "Automotive" "Iowa").2 ∧
    (state_search_prompt "Automotive" "Iowa" = state_search_prompt "Automotive" "Iowa" ∨
     state_search_prompt "Automotive" "Iowa" = fallback_prompt "Automotive" "Iowa") :=
  ⟨by decide,
   C9_query_determinism.2.2.1 (fun _ => "NO_DATA_FOUND") "Automotive" "Iowa"
     (state_search_prompt "Automotive" "Iowa") (by decide)⟩

end SkilledTrades
